import Mathlib

/-!
Shallow embedding of the goauth session-token library.

Conventions of the embedding:
* Go `time.Time` (always UTC in this library) and `time.Duration` are both
  modelled as `Int` (a timestamp / duration in some fixed unit);
  `t1.After t2` is `t2 < t1` and `t1.Before t2` is `t1 < t2`, both strict,
  exactly as in Go.
* Functions that call `CurrentTime()` / `time.Now().UTC()` internally take the
  current time `now : Int` as an explicit extra parameter.
* `UserKeyType` (Go `interface{}`, an opaque comparable identifier) is
  modelled as `Nat`.
* Fallible Go functions returning `(T, error)` become `Except GoauthError T`
  (or a pair with an `Option` error where Go can return both a value and an
  error at once).
* Stateful handlers become explicit state passing: a Go method that mutates
  the handler returns the new handler state.
* The gorilla cookie/session layer, the SQL driver, the memcached client and
  the crypto random source are external collaborators: they appear as
  explicit parameters (oracles) of the functions that call them.
-/

/-- Opaque user identifier (Go `UserKeyType = interface{}`), modelled as `Nat`. -/
abbrev UserKeyType := Nat

/-- The error values produced by the library (`errors.New` values in the Go code). -/
inductive GoauthError where
  /-- `ErrKeyNotFound`: lookup of a key that has no entry. -/
  | errKeyNotFound
  /-- `ErrInvalidKey`: the key was found in storage but is not valid any more. -/
  | errInvalidKey
  /-- `ErrNotAuthSession`: the gorilla session carries no auth key. -/
  | errNotAuthSession
  /-- `errors.New("Key already exists")` in `InMemoryHandler.CreateEntry`. -/
  | errKeyExists
  /-- the `errors.New(...)` returned by `GenRandomBase64` when the secure
  random source fails. -/
  | errRandomGen
  deriving DecidableEq, Repr

/-- `SessionKeyData`: the record stored for a session key. -/
structure SessionKeyData where
  User : UserKeyType
  CreationTime : Int
  ValidUntil : Int
  deriving DecidableEq, Repr

/-- `NewSessionKeyData user creationTime validUntil`. -/
def NewSessionKeyData (user : UserKeyType) (creationTime validUntil : Int) :
    SessionKeyData :=
  { User := user, CreationTime := creationTime, ValidUntil := validUntil }

/-- `CurrentTimeKeyData user validDuration` evaluated at current time `now`:
`now := CurrentTime(); validUntil := now.Add(validDuration)`. -/
def CurrentTimeKeyData (user : UserKeyType) (validDuration now : Int) :
    SessionKeyData :=
  NewSessionKeyData user now (now + validDuration)

/-- `KeyInvalid now validUntil = now.After(validUntil)`: strictly after. -/
def KeyInvalid (now validUntil : Int) : Bool :=
  decide (validUntil < now)

/-- `KeyValid now validUntil = !KeyInvalid(now, validUntil)`. -/
def KeyValid (now validUntil : Int) : Bool :=
  !KeyInvalid now validUntil

/-- `CheckSessionFromTime validDuration referenceTime` evaluated at current time
`now`: returns `(now.Before(referenceTime.Add(validDuration)), now)`. -/
def CheckSessionFromTime (validDuration referenceTime now : Int) : Bool × Int :=
  (decide (now < referenceTime + validDuration), now)

/-- `InMemoryHandler`: the in-memory map backend. The Go `map[string]*SessionKeyData`
is modelled as an association list with no duplicate keys (map semantics rely on
key uniqueness; theorems that need it take a `Nodup` hypothesis). -/
structure InMemoryHandler where
  keys : List (String × SessionKeyData)
  deriving DecidableEq, Repr

namespace InMemoryHandler

/-- `GetData`: return the stored record or `ErrKeyNotFound`. -/
def GetData (h : InMemoryHandler) (key : String) : Except GoauthError SessionKeyData :=
  match h.keys.lookup key with
  | some value => .ok value
  | none => .error .errKeyNotFound

/-- `CreateEntry user key validDuration` at current time `now`: fails if the key
already exists, otherwise stores `CurrentTimeKeyData user validDuration` under
`key` and returns the stored data together with the new handler state. -/
def CreateEntry (h : InMemoryHandler) (user : UserKeyType) (key : String)
    (validDuration now : Int) :
    Except GoauthError (SessionKeyData × InMemoryHandler) :=
  if (h.keys.lookup key).isSome then
    .error .errKeyExists
  else
    let data := CurrentTimeKeyData user validDuration now
    .ok (data, { keys := (key, data) :: h.keys })

/-- `DeleteEntriesForUser user`: remove every entry whose `User` equals `user`;
returns the number removed and the new state. -/
def DeleteEntriesForUser (h : InMemoryHandler) (user : UserKeyType) :
    Nat × InMemoryHandler :=
  ((h.keys.filter (fun p => p.2.User == user)).length,
   { keys := h.keys.filter (fun p => p.2.User != user) })

/-- `DeleteInvalidKeys` at current time `now`: remove every entry for which
`KeyInvalid now value.ValidUntil`; returns the number removed and the new state. -/
def DeleteInvalidKeys (h : InMemoryHandler) (now : Int) : Nat × InMemoryHandler :=
  ((h.keys.filter (fun p => KeyInvalid now p.2.ValidUntil)).length,
   { keys := h.keys.filter (fun p => !KeyInvalid now p.2.ValidUntil) })

/-- `DeleteKey key`: remove the entry for `key`; the Go method always returns a
`nil` error, modelled by the constant `none` error component. -/
def DeleteKey (h : InMemoryHandler) (key : String) :
    InMemoryHandler × Option GoauthError :=
  ({ keys := h.keys.filter (fun p => p.1 != key) }, none)

end InMemoryHandler

/-- `DefaultRandomByteLength = 48`. -/
def DefaultRandomByteLength : Nat := 48

/-- `DefaultKeyLength = 64`. -/
def DefaultKeyLength : Nat := 64

/-- The URL-safe base64 alphabet used by Go's `base64.URLEncoding`. -/
def base64URLAlphabet : List Char :=
  "ABCDEFGHIJKLMNOPQRSTUVWXYZabcdefghijklmnopqrstuvwxyz0123456789-_".toList

/-- Character of the URL-safe base64 alphabet at index `i`. -/
def b64Char (i : Nat) : Char :=
  base64URLAlphabet.getD i 'A'

/-- Go `base64.URLEncoding.EncodeToString` over a byte list (bytes as `Nat`):
three input bytes become four alphabet characters, a final partial group is
padded with `=`. -/
def base64URLEncode : List Nat → List Char
  | [] => []
  | [a] =>
      [b64Char (a >>> 2), b64Char ((a &&& 3) <<< 4), '=', '=']
  | [a, b] =>
      [b64Char (a >>> 2), b64Char (((a &&& 3) <<< 4) ||| (b >>> 4)),
       b64Char ((b &&& 15) <<< 2), '=']
  | a :: b :: c :: rest =>
      b64Char (a >>> 2) ::
      b64Char (((a &&& 3) <<< 4) ||| (b >>> 4)) ::
      b64Char (((b &&& 15) <<< 2) ||| (c >>> 6)) ::
      b64Char (c &&& 63) ::
      base64URLEncode rest

/-- `GenRandomBase64 n`: if `n <= 0` the default byte length 48 is substituted;
then `securecookie.GenerateRandomKey` (the external secure random source,
passed as the oracle `generateRandomKey`, returning `none` on failure exactly
when the Go function returns `nil`) supplies the bytes, which are returned
URL-base64 encoded. -/
def GenRandomBase64 (n : Int) (generateRandomKey : Nat → Option (List Nat)) :
    Except GoauthError String :=
  let n2 := if n ≤ 0 then DefaultRandomByteLength else n.toNat
  match generateRandomKey n2 with
  | none => .error .errRandomGen
  | some b => .ok (String.mk (base64URLEncode b))

/-- `SessionController` over the in-memory backend: embeds the handler state
plus the `NumBytes` and `SessionName` configuration fields. -/
structure SessionController where
  handler : InMemoryHandler
  NumBytes : Int
  SessionName : String
  deriving Repr

namespace SessionController

/-- `NewSessionController h`. -/
def NewSessionController (h : InMemoryHandler) : SessionController :=
  { handler := h, NumBytes := Int.ofNat DefaultRandomByteLength,
    SessionName := "user-auth" }

/-- `AddKey user validDuration` at current time `now`: generate a random
base64 key with `GenRandomBase64 c.NumBytes`, then `CreateEntry`; on success
return the stored data, the key and the updated handler state. -/
def AddKey (c : SessionController) (user : UserKeyType) (validDuration now : Int)
    (generateRandomKey : Nat → Option (List Nat)) :
    Except GoauthError (SessionKeyData × String × InMemoryHandler) :=
  match GenRandomBase64 c.NumBytes generateRandomKey with
  | .error genErr => .error genErr
  | .ok key =>
      match c.handler.CreateEntry user key validDuration now with
      | .error insertErr => .error insertErr
      | .ok (data, h) => .ok (data, key, h)

/-- The storage part of `SessionController.ValidateSession` at current time
`now`: the gorilla cookie layer (extracting `key` from the session and
maintaining `session.Options.MaxAge`) is an external collaborator, so `key`
is taken directly. The storage logic is: `GetData key`; on error propagate
it; if `KeyInvalid now info.ValidUntil` return `ErrInvalidKey`; otherwise
return the record. -/
def ValidateSessionKey (c : SessionController) (now : Int) (key : String) :
    Except GoauthError SessionKeyData :=
  match c.handler.GetData key with
  | .error err => .error err
  | .ok info =>
      if KeyInvalid now info.ValidUntil then .error .errInvalidKey
      else .ok info

end SessionController

/-- A row of the `user_sessions` table used by `SQLSessionHandler`
(columns bound by `CreateQ`: user, key, creation time, valid-until time). -/
structure SQLSessionRow where
  user : UserKeyType
  key : String
  creationTime : Int
  validUntil : Int
  deriving DecidableEq, Repr

/-- `SQLSessionHandler`: the relational backend, modelled by the contents of
its sessions table. Query strings, the driver's scan conversions and the
`blockDB` mutex are external collaborators. -/
structure SQLSessionHandler where
  rows : List SQLSessionRow
  deriving DecidableEq, Repr

namespace SQLSessionHandler

/-- `SQLSessionHandler.CreateEntry user key validDuration` at current time
`now`: builds `data := CurrentTimeKeyData user validDuration`, executes
`CreateQ` with `(user, key, data.CreationTime, data.ValidUntil)` and returns
`data`. `execErr` is the outcome of `DB.Exec` (an oracle: `some e` models a
database error `e`, in which case nothing is inserted and the error is
returned). -/
def CreateEntry (c : SQLSessionHandler) (user : UserKeyType) (key : String)
    (validDuration now : Int) (execErr : Option Nat) :
    Except Nat SessionKeyData × SQLSessionHandler :=
  let data := CurrentTimeKeyData user validDuration now
  match execErr with
  | some e => (.error e, c)
  | none =>
      (.ok data,
       { rows := c.rows ++
           [{ user := user, key := key, creationTime := data.CreationTime,
              validUntil := data.ValidUntil }] })

end SQLSessionHandler

/-- A row of the `user_sessions` table used by the older `SQLConnector` API
(columns: user id, session key, login time, last seen). -/
structure ConnectorSessionRow where
  userId : Nat
  sessionKey : String
  loginTime : Int
  lastSeen : Int
  deriving DecidableEq, Repr

/-- The column name passed to `isValidSessionFromColumn`:
either `"login_time"` or `"last_seen"`. -/
inductive TimeColumn where
  | loginTimeColumn
  | lastSeenColumn
  deriving DecidableEq, Repr

/-- The reference timestamp a `TimeColumn` selects from a row. -/
def ConnectorSessionRow.columnValue (r : ConnectorSessionRow) : TimeColumn → Int
  | .loginTimeColumn => r.loginTime
  | .lastSeenColumn => r.lastSeen

/-- `SQLConnector`: the old-style connector, modelled by its sessions table.
Key generation, query strings and scan conversion are external collaborators
(`forceUint64` only affects the driver-level type coercion of the id and is
dropped: ids are already `Nat`). -/
structure SQLConnector where
  rows : List ConnectorSessionRow
  deriving DecidableEq, Repr

namespace SQLConnector

/-- `QueryRow(GetUserAndTimeByKeyQ, checkKey)`: the first row whose
`session_key` equals `checkKey`, or `sql.ErrNoRows`. -/
def findRow (s : SQLConnector) (checkKey : String) : Option ConnectorSessionRow :=
  s.rows.find? (fun r => r.sessionKey == checkKey)

/-- The `UPDATE ... SET last_seen = now WHERE session_key = checkKey`
statement: every row with that key gets its `lastSeen` set to `now`. -/
def updateLastSeen (s : SQLConnector) (checkKey : String) (now : Int) :
    SQLConnector :=
  { rows := s.rows.map (fun r =>
      if r.sessionKey == checkKey then { r with lastSeen := now } else r) }

/-- `isValidSessionFromColumn validDuration checkKey columnName` at current
time `now`: look the key up; on `ErrNoRows` return `(nil, nil)`; otherwise
check `CheckSessionFromTime validDuration columnValue`; if valid, execute the
last-seen update (whose outcome is the oracle `updateErr`; on failure the
table is unchanged) and return the user id together with the update error;
if invalid return `(nil, nil)`. -/
def isValidSessionFromColumn (s : SQLConnector) (validDuration : Int)
    (checkKey : String) (columnName : TimeColumn) (now : Int)
    (updateErr : Option Nat) : (Option Nat × Option Nat) × SQLConnector :=
  match s.findRow checkKey with
  | none => ((none, none), s)
  | some r =>
      if (CheckSessionFromTime validDuration (r.columnValue columnName) now).1 then
        match updateErr with
        | some e => ((some r.userId, some e), s)
        | none => ((some r.userId, none), s.updateLastSeen checkKey now)
      else ((none, none), s)

/-- `IsValidSession`: fixed-lifetime policy, measured from `login_time`. -/
def IsValidSession (s : SQLConnector) (validDuration : Int) (checkKey : String)
    (now : Int) (updateErr : Option Nat) :
    (Option Nat × Option Nat) × SQLConnector :=
  s.isValidSessionFromColumn validDuration checkKey .loginTimeColumn now updateErr

/-- `IsValidSessionLastSeen`: sliding-lifetime policy, measured from
`last_seen`. -/
def IsValidSessionLastSeen (s : SQLConnector) (validDuration : Int)
    (checkKey : String) (now : Int) (updateErr : Option Nat) :
    (Option Nat × Option Nat) × SQLConnector :=
  s.isValidSessionFromColumn validDuration checkKey .lastSeenColumn now updateErr

end SQLConnector

/-- `MemcachedSessionHandler`: the cache decorator, here over the in-memory
parent backend. The memcached store is modelled as an association list from
formatted cache keys to the stored records. A formatted cache key
`"skey:<identifier>:<key>"` (`formatKeyEntry`, built from `SessionPrefix`,
the current random identifier and the session key; the format is injective)
is represented as the pair `(identifier, key)`. JSON encoding/decoding of the
stored record (`formatJSONData`/`parseJSONData`) round-trips and is elided;
memcached's own TTL eviction is external, an entry present in `cache` is one
memcached would return. -/
structure MemcachedSessionHandler where
  parent : InMemoryHandler
  cache : List ((Nat × String) × SessionKeyData)
  currentSessionKeyIdentifier : Nat
  deriving DecidableEq, Repr

namespace MemcachedSessionHandler

/-- `formatKeyEntry key = "skey:<currentSessionKeyIdentifier>:<key>"`,
represented as the pair. -/
def formatKeyEntry (handler : MemcachedSessionHandler) (key : String) :
    Nat × String :=
  (handler.currentSessionKeyIdentifier, key)

/-- `setMemcached key value`: store `value` under the formatted key. -/
def setMemcached (handler : MemcachedSessionHandler) (key : String)
    (value : SessionKeyData) : MemcachedSessionHandler :=
  { handler with cache := (handler.formatKeyEntry key, value) :: handler.cache }

/-- `GetData key`: first try memcached under the formatted key; on a hit
return the cached record. On a cache miss ask the parent; if the parent
fails propagate its error; if the parent succeeds, store the record in
memcached and return it. -/
def GetData (handler : MemcachedSessionHandler) (key : String) :
    Except GoauthError SessionKeyData × MemcachedSessionHandler :=
  let memcachedKey := handler.formatKeyEntry key
  match handler.cache.lookup memcachedKey with
  | some data => (.ok data, handler)
  | none =>
      match handler.parent.GetData key with
      | .error parentErr => (.error parentErr, handler)
      | .ok parentData => (.ok parentData, handler.setMemcached key parentData)

/-- `CreateEntry user key validDuration` at current time `now`: create in the
parent; on success also store the record in memcached. -/
def CreateEntry (handler : MemcachedSessionHandler) (user : UserKeyType)
    (key : String) (validDuration now : Int) :
    Except GoauthError (SessionKeyData × MemcachedSessionHandler) :=
  match handler.parent.CreateEntry user key validDuration now with
  | .error parentErr => .error parentErr
  | .ok (data, p) =>
      .ok (data, setMemcached { handler with parent := p } key data)

/-- `DeleteEntriesForUser user`: first replace the current random identifier
by a new one (`updateCurrentSessionKeyIdentifier`; the freshly drawn random
value is the parameter `newIdentifier`), which invalidates ALL cached keys,
then delegate to the parent. -/
def DeleteEntriesForUser (handler : MemcachedSessionHandler)
    (user : UserKeyType) (newIdentifier : Nat) :
    Nat × MemcachedSessionHandler :=
  let h1 := { handler with currentSessionKeyIdentifier := newIdentifier }
  let (n, p) := h1.parent.DeleteEntriesForUser user
  (n, { h1 with parent := p })

/-- `DeleteInvalidKeys` at current time `now`: only calls the parent's sweep;
the cache is not touched. -/
def DeleteInvalidKeys (handler : MemcachedSessionHandler) (now : Int) :
    Nat × MemcachedSessionHandler :=
  let (n, p) := handler.parent.DeleteInvalidKeys now
  (n, { handler with parent := p })

/-- `DeleteKey key`: delete the formatted key from memcached, then delegate
to the parent. -/
def DeleteKey (handler : MemcachedSessionHandler) (key : String) :
    MemcachedSessionHandler × Option GoauthError :=
  let h1 := { handler with
    cache := handler.cache.filter (fun e => e.1 != handler.formatKeyEntry key) }
  let (p, e) := h1.parent.DeleteKey key
  ({ h1 with parent := p }, e)

end MemcachedSessionHandler

/-- `MYSQLConnector.IsValidSession` (the old MySQL-specific API): same
shape as `isValidSessionFromColumn` with the `login_time` column, with the
validity test written inline as `now.Before(loginTime.Add(validDuration))`. -/
def MYSQLConnectorIsValidSession (rows : List ConnectorSessionRow)
    (validDuration : Int) (checkKey : String) (now : Int)
    (updateErr : Option Nat) :
    (Option Nat × Option Nat) × List ConnectorSessionRow :=
  match rows.find? (fun r => r.sessionKey == checkKey) with
  | none => ((none, none), rows)
  | some r =>
      if now < r.loginTime + validDuration then
        match updateErr with
        | some e => ((some r.userId, some e), rows)
        | none =>
            ((some r.userId, none),
             rows.map (fun q =>
               if q.sessionKey == checkKey then { q with lastSeen := now } else q))
      else ((none, none), rows)

section LookupLemmas

variable {α β : Type _} [BEq α] [LawfulBEq α]

/-- Lookup misses when no entry carries the key. -/
theorem lookup_eq_none_of_forall_ne (l : List (α × β)) (k : α)
    (h : ∀ p ∈ l, p.1 ≠ k) : l.lookup k = none := by
  induction l with
  | nil => rfl
  | cons p t ih =>
    obtain ⟨a, b⟩ := p
    have ha : a ≠ k := h (a, b) (by simp)
    have hb : (k == a) = false := by
      rw [beq_eq_false_iff_ne]
      exact fun e => ha e.symm
    simp only [List.lookup, hb]
    exact ih (fun q hq => h q (by simp [hq]))

/-- With no duplicate keys, filtering out the unique entry of a key makes
lookup of that key miss. -/
theorem lookup_filter_eq_none (l : List (α × β)) (k : α) (v : β)
    (q : α × β → Bool) (hnd : (l.map Prod.fst).Nodup)
    (hl : l.lookup k = some v) (hq : q (k, v) = false) :
    (l.filter q).lookup k = none := by
  induction l with
  | nil => simp [List.lookup] at hl
  | cons p t ih =>
    obtain ⟨a, b⟩ := p
    simp only [List.map_cons, List.nodup_cons] at hnd
    by_cases hak : a = k
    · subst hak
      have hb : (a == a) = true := by simp
      simp only [List.lookup, hb] at hl
      obtain rfl : b = v := by injection hl
      rw [List.filter_cons_of_neg (by simp [hq])]
      apply lookup_eq_none_of_forall_ne
      intro p hp
      have hpt := List.mem_filter.mp hp
      intro hcontr
      exact hnd.1 (hcontr ▸ List.mem_map_of_mem Prod.fst hpt.1)
    · have hb : (k == a) = false := by
        rw [beq_eq_false_iff_ne]
        exact fun e => hak e.symm
      simp only [List.lookup, hb] at hl
      by_cases hqa : q (a, b) = true
      · rw [List.filter_cons_of_pos hqa]
        simp only [List.lookup, hb]
        exact ih hnd.2 hl
      · rw [List.filter_cons_of_neg (by simpa using hqa)]
        exact ih hnd.2 hl

/-- Filtering away every entry with the given key makes lookup miss,
whatever the rest of the list looks like. -/
theorem lookup_filter_key_ne (l : List (α × β)) (k : α) :
    (l.filter (fun p => p.1 != k)).lookup k = none := by
  apply lookup_eq_none_of_forall_ne
  intro p hp
  have h2 := (List.mem_filter.mp hp).2
  simpa [bne_iff_ne] using h2

end LookupLemmas

/-- The last-seen update rewrites the found row's `lastSeen` in place: the
lookup of the key in the updated table finds the same row with
`lastSeen = now`. -/
theorem find_row_after_touch (rows : List ConnectorSessionRow) (key : String)
    (now : Int) (r : ConnectorSessionRow)
    (h : rows.find? (fun q => q.sessionKey == key) = some r) :
    (rows.map (fun q =>
        if q.sessionKey == key then { q with lastSeen := now } else q)).find?
      (fun q => q.sessionKey == key) = some { r with lastSeen := now } := by
  induction rows with
  | nil => simp at h
  | cons a t ih =>
    by_cases hk : a.sessionKey = key
    · have hb : (a.sessionKey == key) = true := by simp [hk]
      rw [List.find?_cons_of_pos (p := fun q => q.sessionKey == key) t hb] at h
      obtain rfl : a = r := by injection h
      rw [List.map_cons, if_pos hb,
        List.find?_cons_of_pos (p := fun q : ConnectorSessionRow => q.sessionKey == key)
          (a := { a with lastSeen := now }) _ hb]
    · have hbn : ¬((a.sessionKey == key) = true) := by simp [hk]
      rw [List.find?_cons_of_neg (p := fun q => q.sessionKey == key) t hbn] at h
      rw [List.map_cons, if_neg hbn,
        List.find?_cons_of_neg (p := fun q : ConnectorSessionRow => q.sessionKey == key)
          (a := a) _ hbn]
      exact ih h

/-- Length of URL-base64 encoding: four output characters for every complete
or padded group of three input bytes. -/
theorem base64URLEncode_length : ∀ bs : List Nat,
    (base64URLEncode bs).length = 4 * ((bs.length + 2) / 3)
  | [] => rfl
  | [a] => by simp [base64URLEncode]
  | [a, b] => by simp [base64URLEncode]
  | a :: b :: c :: rest => by
    have ih := base64URLEncode_length rest
    simp only [base64URLEncode, List.length_cons, ih]
    omega

/-- Claim C3 (counterexample): at the boundary instant `now = validUntil`
(the concrete record: `referenceTime = 0`, `validDuration = 5`, `now = 5`,
so `validUntil = 5`), `KeyValid` counts the record valid but
`CheckSessionFromTime` counts it invalid, so not every validity decision in
the library implements the predicate `now <= validUntil`. -/
theorem checkSessionFromTime_boundary_counterexample :
    ((5 : Int) ≤ 0 + 5) ∧ KeyValid 5 5 = true ∧
    (CheckSessionFromTime 5 0 5).1 = false := by
  decide

/-- Claim C3 (amended): a record is valid for `KeyValid`/`KeyInvalid` exactly
when `now <= validUntil` (so the boundary instant counts as valid there),
but `CheckSessionFromTime` implements the strict predicate
`now < referenceTime + validDuration`, which counts the boundary instant as
invalid. -/
theorem validity_predicates (now validUntil validDuration referenceTime : Int) :
    (KeyValid now validUntil = true ↔ now ≤ validUntil) ∧
    (KeyInvalid now validUntil = true ↔ validUntil < now) ∧
    ((CheckSessionFromTime validDuration referenceTime now).1 = true ↔
      now < referenceTime + validDuration) := by
  simp [KeyValid, KeyInvalid, CheckSessionFromTime]

/-- Claim C8: deleting a key and then looking it up yields `ErrKeyNotFound`,
whatever the prior state was, and the delete itself reports no error. -/
theorem deleteKey_then_getData_notFound (h : InMemoryHandler) (key : String) :
    (h.DeleteKey key).2 = none ∧
    (h.DeleteKey key).1.GetData key = .error .errKeyNotFound := by
  refine ⟨rfl, ?_⟩
  simp only [InMemoryHandler.GetData, InMemoryHandler.DeleteKey]
  rw [lookup_filter_key_ne]

/-- Claim C4: on a fresh key, `CreateEntry` of the in-memory backend and of
the relational backend produces the record with `CreationTime = now` and
`ValidUntil = now + validDuration`, persists exactly that record under the
key, and returns it. -/
theorem createEntry_current_time_record (h : InMemoryHandler)
    (st : SQLSessionHandler) (user : UserKeyType) (key : String)
    (validDuration now : Int) (hl : h.keys.lookup key = none) :
    h.CreateEntry user key validDuration now =
      .ok (NewSessionKeyData user now (now + validDuration),
        { keys := (key, NewSessionKeyData user now (now + validDuration)) :: h.keys }) ∧
    ({ keys := (key, NewSessionKeyData user now (now + validDuration)) :: h.keys }
        : InMemoryHandler).GetData key =
      .ok (NewSessionKeyData user now (now + validDuration)) ∧
    st.CreateEntry user key validDuration now none =
      (.ok (NewSessionKeyData user now (now + validDuration)),
       { rows := st.rows ++
           [{ user := user, key := key, creationTime := now,
              validUntil := now + validDuration }] }) := by
  refine ⟨?_, ?_, ?_⟩
  · simp [InMemoryHandler.CreateEntry, hl, CurrentTimeKeyData]
  · simp [InMemoryHandler.GetData, List.lookup]
  · simp [SQLSessionHandler.CreateEntry, CurrentTimeKeyData, NewSessionKeyData]

/-- Claim C4 (witness): concrete instantiation on the empty backends. -/
theorem createEntry_current_time_record_witness :
    (⟨[]⟩ : InMemoryHandler).keys.lookup "k" = none ∧
    ((⟨[]⟩ : InMemoryHandler).CreateEntry 1 "k" 5 2 =
      .ok (NewSessionKeyData 1 2 (2 + 5),
        { keys := [("k", NewSessionKeyData 1 2 (2 + 5))] }) ∧
    ({ keys := [("k", NewSessionKeyData 1 2 (2 + 5))] } : InMemoryHandler).GetData "k" =
      .ok (NewSessionKeyData 1 2 (2 + 5)) ∧
    (⟨[]⟩ : SQLSessionHandler).CreateEntry 1 "k" 5 2 none =
      (.ok (NewSessionKeyData 1 2 (2 + 5)),
       { rows := [{ user := 1, key := "k", creationTime := 2, validUntil := 2 + 5 }] })) :=
  ⟨rfl, createEntry_current_time_record ⟨[]⟩ ⟨[]⟩ 1 "k" 5 2 rfl⟩

/-- Claim C5 (counterexample): `CreateEntry` accepts the negative duration
`-1` and produces (and stores) a record with `ValidUntil < CreationTime`,
violating the invariant `validUntil >= createdAt`. -/
theorem create_negative_duration_counterexample :
    (⟨[]⟩ : InMemoryHandler).CreateEntry 1 "k" (-1) 0 =
      .ok (⟨1, 0, -1⟩, { keys := [("k", ⟨1, 0, -1⟩)] }) ∧
    ¬ ((⟨1, 0, -1⟩ : SessionKeyData).CreationTime ≤
        (⟨1, 0, -1⟩ : SessionKeyData).ValidUntil) := by
  exact ⟨rfl, by decide⟩

/-- Claim C5 (amended): every record produced by `CreateEntry` with a
NONNEGATIVE `validDuration` satisfies `CreationTime <= ValidUntil`. -/
theorem createEntry_invariant_of_nonneg (h : InMemoryHandler)
    (user : UserKeyType) (key : String) (validDuration now : Int)
    (data : SessionKeyData) (h2 : InMemoryHandler)
    (hd : 0 ≤ validDuration)
    (hc : h.CreateEntry user key validDuration now = .ok (data, h2)) :
    data.CreationTime ≤ data.ValidUntil := by
  unfold InMemoryHandler.CreateEntry at hc
  split at hc
  · simp at hc
  · injection hc with hc1
    injection hc1 with hd1 hh1
    rw [← hd1]
    simp only [CurrentTimeKeyData, NewSessionKeyData]
    omega

/-- Claim C1: while an expired record is still stored, validating its key
fails with `ErrInvalidKey` (not `ErrKeyNotFound`); validating a key with no
record fails with `ErrKeyNotFound`; and after `DeleteInvalidKeys` sweeps the
expired record, validating the first key also fails with `ErrKeyNotFound`. -/
theorem validate_expired_vs_missing_vs_swept (c : SessionController)
    (now now2 : Int) (key1 key2 : String) (data : SessionKeyData)
    (hnd : (c.handler.keys.map Prod.fst).Nodup)
    (hget : c.handler.GetData key1 = .ok data)
    (hinv : KeyInvalid now data.ValidUntil = true)
    (hmiss : c.handler.keys.lookup key2 = none) :
    c.ValidateSessionKey now key1 = .error .errInvalidKey ∧
    c.ValidateSessionKey now key2 = .error .errKeyNotFound ∧
    ({ c with handler := (c.handler.DeleteInvalidKeys now).2 }
        : SessionController).ValidateSessionKey now2 key1 =
      .error .errKeyNotFound := by
  have hl1 : c.handler.keys.lookup key1 = some data := by
    unfold InMemoryHandler.GetData at hget
    cases hl : c.handler.keys.lookup key1 <;> rw [hl] at hget
    · simp at hget
    · injection hget with hv
      rw [hv]
  refine ⟨?_, ?_, ?_⟩
  · simp [SessionController.ValidateSessionKey, hget, hinv]
  · simp [SessionController.ValidateSessionKey, InMemoryHandler.GetData, hmiss]
  · have hswept : ((c.handler.DeleteInvalidKeys now).2).keys.lookup key1 = none := by
      simp only [InMemoryHandler.DeleteInvalidKeys]
      exact lookup_filter_eq_none _ _ data _ hnd hl1 (by simp [hinv])
    simp [SessionController.ValidateSessionKey, InMemoryHandler.GetData, hswept]

/-- Claim C1 (witness): one expired record under `"a"`, nothing under
`"b"`, checked at time 6 (record valid until 5) and, after the sweep, 7. -/
theorem validate_expired_vs_missing_vs_swept_witness :
    ((⟨⟨[("a", ⟨1, 0, 5⟩)]⟩, 48, "user-auth"⟩ :
        SessionController).handler.keys.map Prod.fst).Nodup ∧
    (⟨⟨[("a", ⟨1, 0, 5⟩)]⟩, 48, "user-auth"⟩ :
        SessionController).handler.GetData "a" = .ok ⟨1, 0, 5⟩ ∧
    KeyInvalid 6 (⟨1, 0, 5⟩ : SessionKeyData).ValidUntil = true ∧
    (⟨⟨[("a", ⟨1, 0, 5⟩)]⟩, 48, "user-auth"⟩ :
        SessionController).handler.keys.lookup "b" = none ∧
    ((⟨⟨[("a", ⟨1, 0, 5⟩)]⟩, 48, "user-auth"⟩ :
        SessionController).ValidateSessionKey 6 "a" = .error .errInvalidKey ∧
     (⟨⟨[("a", ⟨1, 0, 5⟩)]⟩, 48, "user-auth"⟩ :
        SessionController).ValidateSessionKey 6 "b" = .error .errKeyNotFound ∧
     ({ (⟨⟨[("a", ⟨1, 0, 5⟩)]⟩, 48, "user-auth"⟩ : SessionController) with
          handler := (((⟨⟨[("a", ⟨1, 0, 5⟩)]⟩, 48, "user-auth"⟩ :
            SessionController)).handler.DeleteInvalidKeys 6).2 }
        : SessionController).ValidateSessionKey 7 "a" = .error .errKeyNotFound) :=
  ⟨by decide, rfl, by decide, by decide,
    validate_expired_vs_missing_vs_swept ⟨⟨[("a", ⟨1, 0, 5⟩)]⟩, 48, "user-auth"⟩
      6 7 "a" "b" ⟨1, 0, 5⟩ (by decide) rfl (by decide) (by decide)⟩

/-- Claim C6: given a stored row, `IsValidSession` decides validity against
`login_time` (fixed lifetime from creation) while `IsValidSessionLastSeen`
decides it against `last_seen` (sliding lifetime), and a successful sliding
validation rewrites the row's `last_seen` to `now`, so the next sliding
decision is measured from the current validation's time. -/
theorem two_expiry_policies_and_touch (s : SQLConnector)
    (validDuration : Int) (checkKey : String) (now : Int)
    (r : ConnectorSessionRow) (hfind : s.findRow checkKey = some r) :
    ((s.IsValidSession validDuration checkKey now none).1.1 =
      if now < r.loginTime + validDuration then some r.userId else none) ∧
    ((s.IsValidSessionLastSeen validDuration checkKey now none).1.1 =
      if now < r.lastSeen + validDuration then some r.userId else none) ∧
    (now < r.lastSeen + validDuration →
      ((s.IsValidSessionLastSeen validDuration checkKey now none).2).findRow
          checkKey = some { r with lastSeen := now }) := by
  refine ⟨?_, ?_, ?_⟩
  · by_cases hlt : now < r.loginTime + validDuration <;>
      simp [SQLConnector.IsValidSession, SQLConnector.isValidSessionFromColumn,
        hfind, CheckSessionFromTime, ConnectorSessionRow.columnValue, hlt]
  · by_cases hlt : now < r.lastSeen + validDuration <;>
      simp [SQLConnector.IsValidSessionLastSeen, SQLConnector.isValidSessionFromColumn,
        hfind, CheckSessionFromTime, ConnectorSessionRow.columnValue, hlt]
  · intro hlt
    have hstate : (s.IsValidSessionLastSeen validDuration checkKey now none).2 =
        s.updateLastSeen checkKey now := by
      simp [SQLConnector.IsValidSessionLastSeen, SQLConnector.isValidSessionFromColumn,
        hfind, CheckSessionFromTime, ConnectorSessionRow.columnValue, hlt]
    rw [hstate]
    exact find_row_after_touch s.rows checkKey now r hfind

/-- Claim C6 (witness): one row (`login_time = 0`, `last_seen = 3`),
duration 5, checked at time 4. -/
theorem two_expiry_policies_and_touch_witness :
    (⟨[⟨7, "k", 0, 3⟩]⟩ : SQLConnector).findRow "k" = some ⟨7, "k", 0, 3⟩ ∧
    (((⟨[⟨7, "k", 0, 3⟩]⟩ : SQLConnector).IsValidSession 5 "k" 4 none).1.1 =
      if (4 : Int) < 0 + 5 then some 7 else none) ∧
    (((⟨[⟨7, "k", 0, 3⟩]⟩ : SQLConnector).IsValidSessionLastSeen 5 "k" 4 none).1.1 =
      if (4 : Int) < 3 + 5 then some 7 else none) ∧
    ((4 : Int) < 3 + 5 →
      (((⟨[⟨7, "k", 0, 3⟩]⟩ : SQLConnector).IsValidSessionLastSeen 5 "k" 4 none).2).findRow
          "k" = some ⟨7, "k", 0, 4⟩) :=
  ⟨by decide, two_expiry_policies_and_touch ⟨[⟨7, "k", 0, 3⟩]⟩ 5 "k" 4
    ⟨7, "k", 0, 3⟩ (by decide)⟩

/-- Claim C7: when the row is found and the key is still valid but the
last-seen UPDATE fails, both the generic connector path and the MySQL path
return the found user id TOGETHER with the update error. -/
theorem failed_touch_still_returns_user (s : SQLConnector)
    (validDuration : Int) (checkKey : String) (now : Int)
    (r : ConnectorSessionRow) (e : Nat) (col : TimeColumn)
    (hfind : s.findRow checkKey = some r)
    (hvalid : (CheckSessionFromTime validDuration (r.columnValue col) now).1 = true)
    (hvalidLogin : now < r.loginTime + validDuration) :
    (s.isValidSessionFromColumn validDuration checkKey col now (some e)).1 =
      (some r.userId, some e) ∧
    (MYSQLConnectorIsValidSession s.rows validDuration checkKey now (some e)).1 =
      (some r.userId, some e) := by
  have hfind2 : s.rows.find? (fun q => q.sessionKey == checkKey) = some r := hfind
  refine ⟨?_, ?_⟩
  · simp [SQLConnector.isValidSessionFromColumn, hfind, hvalid]
  · simp [MYSQLConnectorIsValidSession, hfind2, hvalidLogin]

/-- Claim C7 (witness): a row valid under the sliding policy at time 4, with
update error code 2. -/
theorem failed_touch_still_returns_user_witness :
    (⟨[⟨7, "k", 0, 3⟩]⟩ : SQLConnector).findRow "k" = some ⟨7, "k", 0, 3⟩ ∧
    (CheckSessionFromTime 5 ((⟨7, "k", 0, 3⟩ : ConnectorSessionRow).columnValue
        .lastSeenColumn) 4).1 = true ∧
    (4 : Int) < 0 + 5 ∧
    ((⟨[⟨7, "k", 0, 3⟩]⟩ : SQLConnector).isValidSessionFromColumn 5 "k"
        .lastSeenColumn 4 (some 2)).1 = (some 7, some 2) ∧
    (MYSQLConnectorIsValidSession [⟨7, "k", 0, 3⟩] 5 "k" 4 (some 2)).1 =
      (some 7, some 2) := by
  refine ⟨by decide, by decide, by decide, ?_⟩
  exact failed_touch_still_returns_user ⟨[⟨7, "k", 0, 3⟩]⟩ 5 "k" 4
    ⟨7, "k", 0, 3⟩ 2 .lastSeenColumn (by decide) (by decide) (by decide)

/-- Claim C2: populate the cache by a `GetData` miss, then revoke the user
(`DeleteEntriesForUser`, drawing a fresh generation identifier). The old
cache entry still physically exists under the old generation's key, the
token's record is gone from the inner backend, and a subsequent `GetData`
of that token returns `ErrKeyNotFound`. -/
theorem memcached_revoke_invalidates_cached_token
    (h0 : MemcachedSessionHandler) (token : String) (data : SessionKeyData)
    (user : UserKeyType) (newId : Nat)
    (hcache : h0.cache.lookup (h0.currentSessionKeyIdentifier, token) = none)
    (hparent : h0.parent.keys.lookup token = some data)
    (hnd : (h0.parent.keys.map Prod.fst).Nodup)
    (huser : data.User = user)
    (hfresh : ∀ e ∈ ((h0.GetData token).2).cache, e.1.1 ≠ newId) :
    (((h0.GetData token).2.DeleteEntriesForUser user newId).2.cache.lookup
        (h0.currentSessionKeyIdentifier, token) = some data) ∧
    (((h0.GetData token).2.DeleteEntriesForUser user newId).2.parent.keys.lookup
        token = none) ∧
    ((((h0.GetData token).2.DeleteEntriesForUser user newId).2.GetData token).1 =
      .error .errKeyNotFound) := by
  have hg0 : (h0.GetData token).2 =
      { h0 with cache :=
          ((h0.currentSessionKeyIdentifier, token), data) :: h0.cache } := by
    simp [MemcachedSessionHandler.GetData, MemcachedSessionHandler.formatKeyEntry,
      hcache, InMemoryHandler.GetData, hparent, MemcachedSessionHandler.setMemcached]
  rw [hg0] at hfresh ⊢
  have hdel : (({ h0 with cache :=
        ((h0.currentSessionKeyIdentifier, token), data) :: h0.cache }
          : MemcachedSessionHandler).DeleteEntriesForUser user newId).2 =
      { parent := { keys := h0.parent.keys.filter (fun p => p.2.User != user) },
        cache := ((h0.currentSessionKeyIdentifier, token), data) :: h0.cache,
        currentSessionKeyIdentifier := newId } := by
    simp [MemcachedSessionHandler.DeleteEntriesForUser,
      InMemoryHandler.DeleteEntriesForUser]
  rw [hdel]
  have hgone : (h0.parent.keys.filter (fun p => p.2.User != user)).lookup token =
      none := by
    exact lookup_filter_eq_none _ _ data _ hnd hparent (by simp [huser])
  refine ⟨by simp [List.lookup], hgone, ?_⟩
  have hnohit : (((h0.currentSessionKeyIdentifier, token), data) ::
      h0.cache).lookup (newId, token) = none := by
    apply lookup_eq_none_of_forall_ne
    intro p hp
    have hne := hfresh p hp
    intro hcontr
    exact hne (by rw [hcontr])
  simp [MemcachedSessionHandler.GetData, MemcachedSessionHandler.formatKeyEntry,
    hnohit, InMemoryHandler.GetData, hgone]

/-- Claim C2 (witness): one record for user 1 under `"t"`, generation 7
bumped to 9 by the revocation. -/
theorem memcached_revoke_invalidates_cached_token_witness :
    ((⟨⟨[("t", ⟨1, 0, 5⟩)]⟩, [], 7⟩ : MemcachedSessionHandler).cache.lookup
        (7, "t") = none) ∧
    ((⟨⟨[("t", ⟨1, 0, 5⟩)]⟩, [], 7⟩ : MemcachedSessionHandler).parent.keys.lookup
        "t" = some ⟨1, 0, 5⟩) ∧
    (((⟨⟨[("t", ⟨1, 0, 5⟩)]⟩, [], 7⟩ :
        MemcachedSessionHandler).parent.keys.map Prod.fst).Nodup) ∧
    ((⟨1, 0, 5⟩ : SessionKeyData).User = 1) ∧
    (∀ e ∈ (((⟨⟨[("t", ⟨1, 0, 5⟩)]⟩, [], 7⟩ :
        MemcachedSessionHandler).GetData "t").2).cache, e.1.1 ≠ 9) ∧
    ((((⟨⟨[("t", ⟨1, 0, 5⟩)]⟩, [], 7⟩ :
          MemcachedSessionHandler).GetData "t").2.DeleteEntriesForUser 1 9).2.cache.lookup
        (7, "t") = some ⟨1, 0, 5⟩ ∧
     (((⟨⟨[("t", ⟨1, 0, 5⟩)]⟩, [], 7⟩ :
          MemcachedSessionHandler).GetData "t").2.DeleteEntriesForUser 1 9).2.parent.keys.lookup
        "t" = none ∧
     ((((⟨⟨[("t", ⟨1, 0, 5⟩)]⟩, [], 7⟩ :
          MemcachedSessionHandler).GetData "t").2.DeleteEntriesForUser 1 9).2.GetData
        "t").1 = .error .errKeyNotFound) :=
  ⟨rfl, rfl, by decide, rfl, by decide,
    memcached_revoke_invalidates_cached_token ⟨⟨[("t", ⟨1, 0, 5⟩)]⟩, [], 7⟩
      "t" ⟨1, 0, 5⟩ 1 9 rfl rfl (by decide) rfl (by decide)⟩

/-- Claim C9: the cache decorator's `DeleteInvalidKeys` changes only the
inner backend: the cache contents and the generation identifier are
untouched, so a token just swept from the inner backend is still returned
by `GetData` as long as its entry is cached under the current generation. -/
theorem memcached_sweep_preserves_cache (h : MemcachedSessionHandler)
    (now : Int) (token : String) (data pd : SessionKeyData)
    (hnd : (h.parent.keys.map Prod.fst).Nodup)
    (hparent : h.parent.keys.lookup token = some pd)
    (hexp : KeyInvalid now pd.ValidUntil = true)
    (hcache : h.cache.lookup (h.currentSessionKeyIdentifier, token) = some data) :
    ((h.DeleteInvalidKeys now).2.cache = h.cache) ∧
    ((h.DeleteInvalidKeys now).2.currentSessionKeyIdentifier =
      h.currentSessionKeyIdentifier) ∧
    ((h.DeleteInvalidKeys now).2.parent.keys.lookup token = none) ∧
    (((h.DeleteInvalidKeys now).2.GetData token).1 = .ok data) ∧
    (((h.DeleteInvalidKeys now).2.GetData token).2 = (h.DeleteInvalidKeys now).2) := by
  have hswept : ((h.DeleteInvalidKeys now).2).parent.keys.lookup token = none := by
    simp only [MemcachedSessionHandler.DeleteInvalidKeys,
      InMemoryHandler.DeleteInvalidKeys]
    exact lookup_filter_eq_none _ _ pd _ hnd hparent (by simp [hexp])
  have hc2 : ((h.DeleteInvalidKeys now).2).cache.lookup
      ((h.DeleteInvalidKeys now).2.currentSessionKeyIdentifier, token) =
      some data := by
    simpa [MemcachedSessionHandler.DeleteInvalidKeys] using hcache
  refine ⟨rfl, rfl, hswept, ?_, ?_⟩ <;>
    simp [MemcachedSessionHandler.GetData, MemcachedSessionHandler.formatKeyEntry, hc2]

/-- Claim C9 (witness): a record expired at time 6 in the inner backend but
cached under the current generation 7. -/
theorem memcached_sweep_preserves_cache_witness :
    (((⟨⟨[("t", ⟨1, 0, 5⟩)]⟩, [((7, "t"), ⟨1, 0, 5⟩)], 7⟩ :
        MemcachedSessionHandler).parent.keys.map Prod.fst).Nodup) ∧
    ((⟨⟨[("t", ⟨1, 0, 5⟩)]⟩, [((7, "t"), ⟨1, 0, 5⟩)], 7⟩ :
        MemcachedSessionHandler).parent.keys.lookup "t" = some ⟨1, 0, 5⟩) ∧
    (KeyInvalid 6 (⟨1, 0, 5⟩ : SessionKeyData).ValidUntil = true) ∧
    ((⟨⟨[("t", ⟨1, 0, 5⟩)]⟩, [((7, "t"), ⟨1, 0, 5⟩)], 7⟩ :
        MemcachedSessionHandler).cache.lookup (7, "t") = some ⟨1, 0, 5⟩) ∧
    (((⟨⟨[("t", ⟨1, 0, 5⟩)]⟩, [((7, "t"), ⟨1, 0, 5⟩)], 7⟩ :
        MemcachedSessionHandler).DeleteInvalidKeys 6).2.cache =
      [((7, "t"), ⟨1, 0, 5⟩)] ∧
     ((⟨⟨[("t", ⟨1, 0, 5⟩)]⟩, [((7, "t"), ⟨1, 0, 5⟩)], 7⟩ :
        MemcachedSessionHandler).DeleteInvalidKeys 6).2.currentSessionKeyIdentifier = 7 ∧
     ((⟨⟨[("t", ⟨1, 0, 5⟩)]⟩, [((7, "t"), ⟨1, 0, 5⟩)], 7⟩ :
        MemcachedSessionHandler).DeleteInvalidKeys 6).2.parent.keys.lookup "t" = none ∧
     (((⟨⟨[("t", ⟨1, 0, 5⟩)]⟩, [((7, "t"), ⟨1, 0, 5⟩)], 7⟩ :
        MemcachedSessionHandler).DeleteInvalidKeys 6).2.GetData "t").1 = .ok ⟨1, 0, 5⟩ ∧
     (((⟨⟨[("t", ⟨1, 0, 5⟩)]⟩, [((7, "t"), ⟨1, 0, 5⟩)], 7⟩ :
        MemcachedSessionHandler).DeleteInvalidKeys 6).2.GetData "t").2 =
       ((⟨⟨[("t", ⟨1, 0, 5⟩)]⟩, [((7, "t"), ⟨1, 0, 5⟩)], 7⟩ :
        MemcachedSessionHandler).DeleteInvalidKeys 6).2) :=
  ⟨by decide, rfl, by decide, rfl,
    memcached_sweep_preserves_cache ⟨⟨[("t", ⟨1, 0, 5⟩)]⟩, [((7, "t"), ⟨1, 0, 5⟩)], 7⟩
      6 "t" ⟨1, 0, 5⟩ ⟨1, 0, 5⟩ (by decide) rfl (by decide) rfl⟩

/-- Claim C10: for nonpositive `n`, `GenRandomBase64` does not fail on the
length: it substitutes the default of 48 random bytes and returns the
64-character URL-base64 key; consequently `AddKey` with `NumBytes = n`
issues a 64-character key and stores the freshly created record under it. -/
theorem genRandomBase64_nonpositive_uses_default (n : Int)
    (generateRandomKey : Nat → Option (List Nat)) (bs : List Nat)
    (h : InMemoryHandler) (user : UserKeyType) (validDuration now : Int)
    (sessionName : String)
    (hn : n ≤ 0)
    (hgen : generateRandomKey DefaultRandomByteLength = some bs)
    (hlen : bs.length = DefaultRandomByteLength)
    (hfresh : h.keys.lookup (String.mk (base64URLEncode bs)) = none) :
    GenRandomBase64 n generateRandomKey = .ok (String.mk (base64URLEncode bs)) ∧
    (String.mk (base64URLEncode bs)).length = DefaultKeyLength ∧
    SessionController.AddKey ⟨h, n, sessionName⟩ user validDuration now
        generateRandomKey =
      .ok (NewSessionKeyData user now (now + validDuration),
        String.mk (base64URLEncode bs),
        { keys := (String.mk (base64URLEncode bs),
            NewSessionKeyData user now (now + validDuration)) :: h.keys }) := by
  have hg : GenRandomBase64 n generateRandomKey =
      .ok (String.mk (base64URLEncode bs)) := by
    simp [GenRandomBase64, hn, hgen]
  refine ⟨hg, ?_, ?_⟩
  · have hsl : (String.mk (base64URLEncode bs)).length =
        (base64URLEncode bs).length := rfl
    rw [hsl, base64URLEncode_length, hlen]
    rfl
  · simp [SessionController.AddKey, hg, InMemoryHandler.CreateEntry, hfresh,
      CurrentTimeKeyData]

/-- Claim C10 (witness): `n = 0` with a 48-byte random source on the empty
backend. -/
theorem genRandomBase64_nonpositive_uses_default_witness :
    ((0 : Int) ≤ 0) ∧
    ((fun m => if m = 48 then some (List.replicate 48 0) else none)
        DefaultRandomByteLength = some (List.replicate 48 0)) ∧
    ((List.replicate 48 0).length = DefaultRandomByteLength) ∧
    ((⟨[]⟩ : InMemoryHandler).keys.lookup
        (String.mk (base64URLEncode (List.replicate 48 0))) = none) ∧
    (GenRandomBase64 0 (fun m => if m = 48 then some (List.replicate 48 0) else none) =
        .ok (String.mk (base64URLEncode (List.replicate 48 0))) ∧
     (String.mk (base64URLEncode (List.replicate 48 0))).length = DefaultKeyLength ∧
     SessionController.AddKey ⟨⟨[]⟩, 0, "user-auth"⟩ 1 5 2
         (fun m => if m = 48 then some (List.replicate 48 0) else none) =
       .ok (NewSessionKeyData 1 2 (2 + 5),
         String.mk (base64URLEncode (List.replicate 48 0)),
         { keys := [(String.mk (base64URLEncode (List.replicate 48 0)),
             NewSessionKeyData 1 2 (2 + 5))] })) :=
  ⟨by decide, by simp [DefaultRandomByteLength], by simp [DefaultRandomByteLength],
    rfl,
    genRandomBase64_nonpositive_uses_default 0
      (fun m => if m = 48 then some (List.replicate 48 0) else none)
      (List.replicate 48 0) ⟨[]⟩ 1 5 2 "user-auth" (by decide)
      (by simp [DefaultRandomByteLength]) (by simp [DefaultRandomByteLength]) rfl⟩

/-- Claim C5 (witness): concrete instantiation with duration 5. -/
theorem createEntry_invariant_of_nonneg_witness :
    (0 : Int) ≤ 5 ∧
    (⟨[]⟩ : InMemoryHandler).CreateEntry 1 "k" 5 0 =
      .ok (⟨1, 0, 5⟩, { keys := [("k", ⟨1, 0, 5⟩)] }) ∧
    (⟨1, 0, 5⟩ : SessionKeyData).CreationTime ≤
      (⟨1, 0, 5⟩ : SessionKeyData).ValidUntil :=
  ⟨by decide, rfl,
    createEntry_invariant_of_nonneg ⟨[]⟩ 1 "k" 5 0 ⟨1, 0, 5⟩
      { keys := [("k", ⟨1, 0, 5⟩)] } (by decide) rfl⟩
